import Mathlib

/-!
Verification of the Octo Bed BLE coordinator (custom_components/octo_bed).

Shallow embedding of the pure logic of `coordinator.py` and `const.py`:
frames are `List ℕ` of byte values, PIN strings are `List Char`, positions
are `ℚ`, millisecond durations are `ℤ`.  Stateful coroutines are embedded
as explicit state-passing functions over a `CoordState` record; the BLE
environment (notifications received, connection survival, per-attempt
failures) is passed in as explicit parameters.
-/

namespace OctoBed

/-! ### Constants from const.py -/

def CMD_STOP : List ℕ := [0x40, 0x02, 0x73, 0x00, 0x00, 0x0B, 0x40]
def CMD_HEAD_UP : List ℕ := [0x40, 0x02, 0x70, 0x00, 0x01, 0x0B, 0x02, 0x40]
def CMD_HEAD_DOWN : List ℕ := [0x40, 0x02, 0x71, 0x00, 0x01, 0x0A, 0x02, 0x40]
def CMD_FEET_UP : List ℕ := [0x40, 0x02, 0x70, 0x00, 0x01, 0x09, 0x04, 0x40]
def CMD_FEET_DOWN : List ℕ := [0x40, 0x02, 0x71, 0x00, 0x01, 0x08, 0x04, 0x40]
def CMD_BOTH_UP : List ℕ := [0x40, 0x02, 0x70, 0x00, 0x01, 0x07, 0x06, 0x40]
def CMD_BOTH_DOWN : List ℕ := [0x40, 0x02, 0x71, 0x00, 0x01, 0x06, 0x06, 0x40]

def PIN_RESPONSE_ACCEPTED : ℕ := 0x1A
def PIN_RESPONSE_REJECTED : ℕ := 0x18
def PIN_RESPONSE_REJECTED_ALT : ℕ := 0x00
def PIN_RESPONSE_REJECTED_1B : ℕ := 0x1B
def PIN_RESPONSE_NOT_SET : ℕ := 0x1F
def PIN_RESPONSE_STATUS_BYTE_INDEX : ℕ := 5

/-! ### Notification classification (`_parse_pin_response`, coordinator.py 134-161) -/

def pinStatusAccepted (s : ℕ) : Bool := s = PIN_RESPONSE_ACCEPTED

def pinStatusRejected (s : ℕ) : Bool :=
  s = PIN_RESPONSE_REJECTED || s = PIN_RESPONSE_REJECTED_ALT ||
  s = PIN_RESPONSE_REJECTED_1B || s = PIN_RESPONSE_NOT_SET

/-- Embedding of `_parse_pin_response`: `some true` = accepted, `some false`
= rejected, `none` = unknown.  `data.getD i 0` stands for `data[i]`, always
guarded by the same length tests as the source. -/
def parse_pin_response (data : List ℕ) : Option Bool :=
  if data.length < 2 then none
  else if data.getD 1 0 ≠ 0x21 then none
  else if ¬(data.getD 0 0 = 0x40 ∨ data.getD 0 0 = 0x46) then none
  else
    let atIndex5 : Option Bool :=
      if PIN_RESPONSE_STATUS_BYTE_INDEX < data.length then
        let status := data.getD PIN_RESPONSE_STATUS_BYTE_INDEX 0
        if pinStatusAccepted status then some true
        else if pinStatusRejected status then some false
        else none
      else none
    match atIndex5 with
    | some b => some b
    | none =>
      let last := data.getLastD 0
      if pinStatusAccepted last then some true
      else if pinStatusRejected last then some false
      else none

/-- The spec's four-way classification variant. -/
inductive PinResponse where
  | Accepted
  | Rejected
  | NoPinSet
  | Unknown
deriving DecidableEq

/-- Modelled from the spec's words (§4.1) for the refinement comparison of C1:
requires byte 1 = 0x21 and byte 0 to be 0x40 or 0x46; inspects the status byte
at fixed offset 5 (or, if the frame is shorter, the last byte):
0x1A→Accepted, 0x18/0x1B/0x00→Rejected, 0x1F→NoPinSet, else→Unknown. -/
def parse_notification_spec (data : List ℕ) : PinResponse :=
  if data.length < 2 then .Unknown
  else if data.getD 1 0 ≠ 0x21 then .Unknown
  else if ¬(data.getD 0 0 = 0x40 ∨ data.getD 0 0 = 0x46) then .Unknown
  else
    let status := if 5 < data.length then data.getD 5 0 else data.getLastD 0
    if status = 0x1A then .Accepted
    else if status = 0x18 ∨ status = 0x1B ∨ status = 0x00 then .Rejected
    else if status = 0x1F then .NoPinSet
    else .Unknown

/-- The code's three classifications mapped into the spec's variant.  The code
has no value corresponding to `NoPinSet`. -/
def respOfCode : Option Bool → PinResponse
  | some true => .Accepted
  | some false => .Rejected
  | none => .Unknown

/-- Status-byte mapping of the amended claim of C1: 0x1A→Accepted; 0x18,
0x1B, 0x00 and also 0x1F (no-PIN-set is grouped with rejection) →Rejected;
anything else→Unknown. -/
def classify_status_amended (s : ℕ) : PinResponse :=
  if s = 0x1A then .Accepted
  else if s = 0x18 ∨ s = 0x1B ∨ s = 0x00 ∨ s = 0x1F then .Rejected
  else .Unknown

/-- Amended classification of C1, written from the amended claim's words:
header as before; when the frame has more than 5 bytes the status byte at
offset 5 is examined first, and when it is absent or unrecognized the last
byte is examined with the same mapping. -/
def parse_notification_amended (data : List ℕ) : PinResponse :=
  if data.length < 2 then .Unknown
  else if data.getD 1 0 ≠ 0x21 then .Unknown
  else if ¬(data.getD 0 0 = 0x40 ∨ data.getD 0 0 = 0x46) then .Unknown
  else if 5 < data.length ∧ classify_status_amended (data.getD 5 0) ≠ .Unknown then
    classify_status_amended (data.getD 5 0)
  else classify_status_amended (data.getLastD 0)

/-! ### PIN normalization (`_normalize_pin_str` / `normalize_pin`, coordinator.py 59-68) -/

/-- Python `str.strip()`: whitespace removed from both ends. -/
def pyStrip (l : List Char) : List Char :=
  ((l.dropWhile Char.isWhitespace).reverse.dropWhile Char.isWhitespace).reverse

def isPinDigit (c : Char) : Bool := ("0123456789".toList).contains c

/-- Embedding of `_normalize_pin_str`.  `(pin or "0000")` defaults only the
empty string; `.ljust(4, "0")` pads on the right up to length 4 (the filter
result is already truncated to at most 4 by `[:4]`). -/
def normalize_pin_str (pin : List Char) : List Char :=
  let raw := pyStrip (if pin = [] then "0000".toList else pin)
  let digits_only := (raw.filter isPinDigit).take 4
  digits_only ++ List.replicate (4 - digits_only.length) '0'

def normalize_pin (pin : List Char) : List Char := normalize_pin_str pin

/-! ### Coordinator state and position setters -/

/-- Python `int(q)`: truncation toward zero. -/
def pyInt (q : ℚ) : ℤ := if 0 ≤ q then Int.floor q else Int.ceil q

/-- The coordinator fields the verified operations touch.
`head_calibration_ms` / `feet_calibration_ms` are the instance variables
`_head_calibration_ms` / `_feet_calibration_ms`;
`head_calibration_options_sec` / `feet_calibration_options_sec` back the
`head_calibration_ms` / `feet_calibration_ms` *properties*, which re-read
the persisted option and clamp it. -/
structure CoordState where
  head_position : ℚ
  feet_position : ℚ
  head_calibration_ms : ℤ
  feet_calibration_ms : ℤ
  head_calibration_options_sec : ℚ
  feet_calibration_options_sec : ℚ
deriving DecidableEq

/-- The `head_calibration_ms` property (coordinator.py 246-251):
`max(1000, min(120000, int(float(sec) * 1000)))`. -/
def head_calibration_ms_prop (st : CoordState) : ℤ :=
  max 1000 (min 120000 (pyInt (st.head_calibration_options_sec * 1000)))

/-- The `feet_calibration_ms` property (coordinator.py 253-259). -/
def feet_calibration_ms_prop (st : CoordState) : ℤ :=
  max 1000 (min 120000 (pyInt (st.feet_calibration_options_sec * 1000)))

/-- `set_head_position` (coordinator.py 261-266): stores `max(0, min(100, value))`. -/
def set_head_position (st : CoordState) (value : ℚ) : CoordState :=
  { st with head_position := max 0 (min 100 value) }

/-- `set_feet_position` (coordinator.py 268-272). -/
def set_feet_position (st : CoordState) (value : ℚ) : CoordState :=
  { st with feet_position := max 0 (min 100 value) }

/-- The position invariant of the data model: both estimated positions lie
in [0,100]. -/
def InRange (st : CoordState) : Prop :=
  0 ≤ st.head_position ∧ st.head_position ≤ 100 ∧
  0 ≤ st.feet_position ∧ st.feet_position ≤ 100

/-! ### Position estimation after switch movement (coordinator.py 799-829) -/

/-- `update_position_after_switch_movement`: estimates the new position from
the movement duration against the calibration-time properties; every store
goes through the clamping setters. -/
def update_position_after_switch_movement (st : CoordState) (command : List ℕ)
    (duration_sec : ℚ) : CoordState :=
  if duration_sec ≤ 0 then st
  else
    let head_cal_sec : ℚ := (head_calibration_ms_prop st : ℚ) / 1000
    let feet_cal_sec : ℚ := (feet_calibration_ms_prop st : ℚ) / 1000
    if command = CMD_HEAD_UP then
      let delta := min 100 (duration_sec / max (1/10) head_cal_sec * 100)
      set_head_position st (st.head_position + delta)
    else if command = CMD_HEAD_DOWN then
      let delta := min 100 (duration_sec / max (1/10) head_cal_sec * 100)
      set_head_position st (st.head_position - delta)
    else if command = CMD_FEET_UP then
      let delta := min 100 (duration_sec / max (1/10) feet_cal_sec * 100)
      set_feet_position st (st.feet_position + delta)
    else if command = CMD_FEET_DOWN then
      let delta := min 100 (duration_sec / max (1/10) feet_cal_sec * 100)
      set_feet_position st (st.feet_position - delta)
    else if command = CMD_BOTH_UP then
      let both_cal := max head_cal_sec feet_cal_sec
      let delta_both := min 100 (duration_sec / max (1/10) both_cal * 100)
      set_feet_position (set_head_position st (st.head_position + delta_both))
        (st.feet_position + delta_both)
    else if command = CMD_BOTH_DOWN then
      let both_cal := max head_cal_sec feet_cal_sec
      let delta_both := min 100 (duration_sec / max (1/10) both_cal * 100)
      set_feet_position (set_head_position st (st.head_position - delta_both))
        (st.feet_position - delta_both)
    else st

/-- One position-estimation step of the fixed-duration streaming loop
(coordinator.py 989-1012): `start_head` / `start_feet` were captured when the
attempt began streaming and `elapsed` seconds have passed since. -/
def movement_stream_update (st : CoordState) (command : List ℕ)
    (start_head start_feet elapsed : ℚ) : CoordState :=
  let head_cal_sec : ℚ := (head_calibration_ms_prop st : ℚ) / 1000
  let feet_cal_sec : ℚ := (feet_calibration_ms_prop st : ℚ) / 1000
  if command = CMD_HEAD_UP then
    set_head_position st (min 100 (start_head + elapsed / max (1/10) head_cal_sec * 100))
  else if command = CMD_HEAD_DOWN then
    set_head_position st (max 0 (start_head - elapsed / max (1/10) head_cal_sec * 100))
  else if command = CMD_FEET_UP then
    set_feet_position st (min 100 (start_feet + elapsed / max (1/10) feet_cal_sec * 100))
  else if command = CMD_FEET_DOWN then
    set_feet_position st (max 0 (start_feet - elapsed / max (1/10) feet_cal_sec * 100))
  else if command = CMD_BOTH_UP then
    let both_cal := max head_cal_sec feet_cal_sec
    let delta := elapsed / max (1/10) both_cal * 100
    set_feet_position (set_head_position st (min 100 (start_head + delta)))
      (min 100 (start_feet + delta))
  else if command = CMD_BOTH_DOWN then
    let both_cal := max head_cal_sec feet_cal_sec
    let delta := elapsed / max (1/10) both_cal * 100
    set_feet_position (set_head_position st (max 0 (start_head - delta)))
      (max 0 (start_feet - delta))
  else st

/-! ### Move-to-position planning (coordinator.py 1048-1078) -/

/-- The pure planning part of `async_set_head_position`: clamp the target,
no-op (`none`) when within 0.5 of the current position, otherwise the
command and the stream duration in ms:
`max(300, min(_head_calibration_ms, int((diff / 100) * _head_calibration_ms)))`. -/
def async_set_head_position_plan (current target : ℚ) (head_calibration_ms : ℤ) :
    Option (List ℕ × ℤ) :=
  let position := max 0 (min 100 target)
  if |position - current| < 1/2 then none
  else
    let diff := |position - current|
    let duration_ms := pyInt (diff / 100 * (head_calibration_ms : ℚ))
    let duration_ms := max 300 (min head_calibration_ms duration_ms)
    some (if position > current then CMD_HEAD_UP else CMD_HEAD_DOWN, duration_ms)

/-- The pure planning part of `async_set_feet_position` (same body on the
feet axis; coordinator.py 1064-1078). -/
def async_set_feet_position_plan (current target : ℚ) (feet_calibration_ms : ℤ) :
    Option (List ℕ × ℤ) :=
  let position := max 0 (min 100 target)
  if |position - current| < 1/2 then none
  else
    let diff := |position - current|
    let duration_ms := pyInt (diff / 100 * (feet_calibration_ms : ℚ))
    let duration_ms := max 300 (min feet_calibration_ms duration_ms)
    some (if position > current then CMD_FEET_UP else CMD_FEET_DOWN, duration_ms)

/-! ### Move-to-zero and calibration stop (coordinator.py 1313-1385) -/

/-- `async_move_to_zero`: which axes move is decided from the flags and the
entry positions; each moving axis issues one bounded move of
`max(300, int((start / 100) * _calibration_ms))` ms and is then set to 0.
Returns the resulting state and the list of (command, duration-ms) moves
issued through `async_run_movement_for_duration`. -/
def async_move_to_zero (st : CoordState) (head_only feet_only : Bool) :
    CoordState × List (List ℕ × ℤ) :=
  let move_head := head_only || (!feet_only && decide (st.head_position > 1/2))
  let move_feet := feet_only || (!head_only && decide (st.feet_position > 1/2))
  let headStep : CoordState × List (List ℕ × ℤ) :=
    if move_head then
      let head_start := st.head_position
      let moves :=
        if head_start > 1/2 then
          [(CMD_HEAD_DOWN, max 300 (pyInt (head_start / 100 * (st.head_calibration_ms : ℚ))))]
        else []
      (set_head_position st 0, moves)
    else (st, [])
  let st1 := headStep.1
  if move_feet then
    let feet_start := st1.feet_position
    let moves :=
      if feet_start > 1/2 then
        [(CMD_FEET_DOWN, max 300 (pyInt (feet_start / 100 * (st1.feet_calibration_ms : ℚ))))]
      else []
    (set_feet_position st1 0, headStep.2 ++ moves)
  else (st1, headStep.2)

/-- `async_stop_calibration`, state part (coordinator.py 1336-1352):
`duration_ms = max(1000, min(120000, elapsed_ms))` is stored as the
calibrated axis's constant, that axis's position is set to 100, then
`async_move_to_zero(head_only=was_head, feet_only=was_feet)` runs.
`calibration_mode` is 1 for head, 2 for feet.  Returns the state right
after the save (before the move), the final state, and the moves issued. -/
def async_stop_calibration (st : CoordState) (calibration_mode : ℕ) (elapsed_ms : ℤ) :
    CoordState × CoordState × List (List ℕ × ℤ) :=
  let was_head := calibration_mode = 1
  let was_feet := calibration_mode = 2
  let duration_ms := max 1000 (min 120000 elapsed_ms)
  let st1 :=
    if was_head then
      set_head_position { st with head_calibration_ms := duration_ms } 100
    else if was_feet then
      set_feet_position { st with feet_calibration_ms := duration_ms } 100
    else st
  let moved := async_move_to_zero st1 was_head was_feet
  (st1, moved.1, moved.2)

/-! ### PIN-validation fallback classification (coordinator.py 1610-1650)

`validate_pin`'s decision after the keep-alive write, as a pure function of
the notifications received and whether the client is still connected at the
final check.  The asyncio waits do not alter the classification. -/

/-- `PIN_RESPONSE_NOT_SET in data`: Python byte-membership. -/
def pinNotSetIn (data : List ℕ) : Bool := data.contains PIN_RESPONSE_NOT_SET

/-- First scan over received notifications (coordinator.py 1611-1622):
a 0x1F byte anywhere means the no-PIN path ("ok" after app-init),
then explicit reject/accept classification. -/
def validate_pin_first_scan : List (List ℕ) → Option String
  | [] => none
  | d :: rest =>
    if pinNotSetIn d then some "ok"
    else
      match parse_pin_response d with
      | some false => some "wrong_pin"
      | some true => some "ok"
      | none => validate_pin_first_scan rest

/-- Re-check after the extra 1.5 s wait (coordinator.py 1632-1637). -/
def validate_pin_recheck_scan : List (List ℕ) → Option String
  | [] => none
  | d :: rest =>
    match parse_pin_response d with
    | some false => some "wrong_pin"
    | some true => some "ok"
    | none => validate_pin_recheck_scan rest

/-- `validate_pin`'s outcome from the received notifications and the final
connectivity check (coordinator.py 1610-1650): when nothing classifies,
a still-connected device is treated as "ok" and a disconnected one as
"connection_failed" (explicitly not "wrong_pin"). -/
def validate_pin_outcome (received : List (List ℕ)) (still_connected : Bool) : String :=
  match validate_pin_first_scan received with
  | some r => r
  | none =>
    match validate_pin_recheck_scan received with
    | some r => r
    | none => if still_connected then "ok" else "connection_failed"

/-! ### Keep-alive loop iteration and poll gating (coordinator.py 1095-1113, 423-441) -/

/-- The coordinator fields read by one keep-alive iteration and by one poll
(`_async_update_data`) cycle. -/
structure PollEnv where
  movement_active : Bool
  calibration_active : Bool
  calibration_stopping : Bool
  has_last_movement_end : Bool
  seconds_since_movement_end : ℚ
  address_resolved : Bool
  address_present : Bool
deriving DecidableEq

inductive PollAction where
  | skipBusy
  | skipCooldown
  | pinCheck
  | rediscover
deriving DecidableEq

/-- `_async_update_data` control flow (coordinator.py 423-441): the busy
flags skip the BLE check, then the 15 s post-movement cooldown, then either
a PIN check (address observed) or rediscovery. -/
def async_update_data_action (e : PollEnv) : PollAction :=
  if e.movement_active || e.calibration_active || e.calibration_stopping then .skipBusy
  else if e.has_last_movement_end && decide (e.seconds_since_movement_end < 15) then .skipCooldown
  else if e.address_resolved && e.address_present then .pinCheck
  else .rediscover

/-- One iteration of `_keep_alive_loop` (coordinator.py 1098-1103): after the
sleep, the keep-alive is sent exactly when the address is resolved and
currently observed — no other condition is consulted. -/
def keep_alive_iteration_sends (e : PollEnv) : Bool :=
  e.address_resolved && e.address_present

/-! ### Dynamic system-command builder (coordinator.py 644-656) -/

/-- `async_send_system_command`'s frame construction: "short" is the 7-byte
family with checksum `(0x160 - OP) & 0xFF`; "72" is the 15-byte family;
any other family sends nothing. -/
def async_send_system_command_frame (family : String) (opcode : ℕ) : Option (List ℕ) :=
  let op := opcode % 256
  if family = "short" then
    some [0x40, 0x20, op, 0x00, 0x00, (0x160 - op) % 256, 0x40]
  else if family = "72" then
    some [0x40, 0x20, 0x72, 0x00, 0x08, op, 0x00, 0x00,
          0x10, 0x01, 0x01, 0x01, 0x01, 0x01, 0x40]
  else none

/-! ### Fixed-duration movement with retry (coordinator.py 938-1046)

`async_run_movement_for_duration` is a `for attempt in range(3)` loop; each
attempt connects, streams the *remaining* duration, and on an exception adds
`max(0, elapsed_this_attempt)` to `elapsed_total`, retrying only on a
"characteristic not found" error when `attempt < 2` and a device handle is
still available.  The BLE environment is a script assigning each attempt its
outcome; `streamed` is the `elapsed_this_attempt` the coordinator computes
for a failed attempt. -/

/-- Outcome of one connection attempt, supplied by the environment. -/
inductive MovementStep where
  | completes
  | failsCharNotFound (streamed : ℚ) (deviceStillAvailable : Bool)
  | failsOther (streamed : ℚ)

/-- What one run of `async_run_movement_for_duration` did:
the returned boolean, how many `establish_connection` calls were made,
the `remaining` duration each attempt set out to stream, and whether the
best-effort `_send_command(CMD_STOP)` fallback fired on abort. -/
structure MovementOutcome where
  success : Bool
  connects : ℕ
  plannedSegments : List ℚ
  sentFallbackStop : Bool
deriving DecidableEq

/-- The attempt loop.  `fuel` is the number of loop iterations left
(`3 - attempt`); the `attempt < 2` retry guard uses the attempt index as in
the source.  The fuel-0 base is unreachable from `fuel = 3, attempt = 0`
because the `attempt = 2` iteration returns in every branch. -/
def movement_attempt_loop (duration : ℚ) (steps : ℕ → MovementStep) :
    ℕ → ℕ → ℚ → MovementOutcome
  | 0, _, _ => ⟨false, 0, [], false⟩
  | fuel + 1, attempt, elapsed_total =>
    let remaining := duration - elapsed_total
    if remaining ≤ 1/10 then ⟨true, 0, [], false⟩
    else
      match steps attempt with
      | .completes => ⟨true, 1, [remaining], false⟩
      | .failsOther _ => ⟨false, 1, [remaining], true⟩
      | .failsCharNotFound streamed avail =>
        if attempt < 2 then
          if avail then
            let rest :=
              movement_attempt_loop duration steps fuel (attempt + 1)
                (elapsed_total + max 0 streamed)
            ⟨rest.success, rest.connects + 1, remaining :: rest.plannedSegments,
              rest.sentFallbackStop⟩
          else ⟨false, 1, [remaining], true⟩
        else ⟨false, 1, [remaining], true⟩

/-- `async_run_movement_for_duration`: early-exit guards (non-positive
duration → immediate `True`, no device handle → `False`), then the
three-attempt loop. -/
def async_run_movement_for_duration (hasDevice : Bool) (duration_sec : ℚ)
    (steps : ℕ → MovementStep) : MovementOutcome :=
  if duration_sec ≤ 0 then ⟨true, 0, [], false⟩
  else if !hasDevice then ⟨false, 0, [], false⟩
  else movement_attempt_loop duration_sec steps 3 0 0

/-! ## Theorems -/

theorem pyInt_intCast (n : ℤ) : pyInt (n : ℚ) = n := by
  unfold pyInt
  split_ifs <;> simp

/-- Claim C8: for every opcode in 0..255 the "short" diagnostic frame is
`40 20 OP 00 00 CK 40` with `CK = (0x160 - OP) mod 256`, and
`(OP + CK) mod 256 = 0x60`. -/
theorem short_frame_checksum (op : ℕ) (h : op < 256) :
    async_send_system_command_frame "short" op =
      some [0x40, 0x20, op, 0x00, 0x00, (0x160 - op) % 256, 0x40] ∧
    (op + (0x160 - op) % 256) % 256 = 0x60 := by
  constructor
  · simp [async_send_system_command_frame, Nat.mod_eq_of_lt h]
  · omega

theorem short_frame_checksum_witness :
    async_send_system_command_frame "short" 0x70 =
      some [0x40, 0x20, 0x70, 0x00, 0x00, (0x160 - 0x70) % 256, 0x40] ∧
    (0x70 + (0x160 - 0x70) % 256) % 256 = 0x60 :=
  short_frame_checksum 0x70 (by decide)

/-- Claim C7 (failing input): `normalize_pin "123"` right-pads via
`ljust(4, "0")` and yields `"1230"`, not the left-padded `"0123"` that both
the spec and the function's own docstring describe. -/
theorem normalize_pin_right_pads :
    normalize_pin ("123".toList) = "1230".toList ∧
    normalize_pin ("123".toList) ≠ "0123".toList := by decide

/-- Claim C1 (counterexample): the code maps status 0x1F to rejected
(`some false`), not to a distinct NoPinSet, and for a long frame whose
offset-5 byte is unrecognized it still falls back to the last byte
(frame `46 21 43 80 01 36 00` from the source comments: classified
rejected via its last byte 0x00, while the claimed fixed-offset rule
gives Unknown). -/
theorem parse_pin_response_spec_divergence :
    (respOfCode (parse_pin_response [0x40, 0x21, 0x43, 0x00, 0x01, 0x1F, 0x01, 0x40]) =
        PinResponse.Rejected ∧
      parse_notification_spec [0x40, 0x21, 0x43, 0x00, 0x01, 0x1F, 0x01, 0x40] =
        PinResponse.NoPinSet) ∧
    (respOfCode (parse_pin_response [0x46, 0x21, 0x43, 0x80, 0x01, 0x36, 0x00]) =
        PinResponse.Rejected ∧
      parse_notification_spec [0x46, 0x21, 0x43, 0x80, 0x01, 0x36, 0x00] =
        PinResponse.Unknown) := by decide

/-- Claim C1 (amended): for every byte sequence the classifier returns
Unknown unless byte 1 is 0x21 and byte 0 is 0x40 or 0x46; otherwise it
classifies by the status byte at offset 5 when the frame is longer than 5
bytes and that byte is recognized, falling back to the last byte otherwise,
with 0x1A→Accepted, any of 0x18/0x1B/0x00/0x1F→Rejected (no-PIN-set is
reported as rejection, not as a separate variant), anything else→Unknown.
Determinism and freedom from side effects hold because `parse_pin_response`
is a function of the bytes alone. -/
theorem parse_pin_response_amended_agrees (data : List ℕ) :
    respOfCode (parse_pin_response data) = parse_notification_amended data := by
  unfold parse_pin_response parse_notification_amended PIN_RESPONSE_STATUS_BYTE_INDEX
  generalize data.getD 5 0 = s5
  generalize data.getLastD 0 = lb
  generalize data.getD 0 0 = b0
  generalize data.getD 1 0 = b1
  generalize data.length = n
  simp only [pinStatusAccepted, pinStatusRejected, PIN_RESPONSE_ACCEPTED,
    PIN_RESPONSE_REJECTED, PIN_RESPONSE_REJECTED_ALT, PIN_RESPONSE_REJECTED_1B,
    PIN_RESPONSE_NOT_SET, classify_status_amended, Bool.or_eq_true, decide_eq_true_eq]
  split_ifs <;> simp_all [respOfCode]

/-- Claim C2 (counterexample): with `current = 0`, `target = 50` and
`_head_calibration_ms = 1001`, the code's `int()` truncation yields a
duration of 500 ms, while the claimed formula
`clamp(300, calibration_ms, (|target-current|/100) x calibration_ms)`
evaluates to 500.5 ms. -/
theorem set_position_plan_trunc_counterexample :
    async_set_head_position_plan 0 50 1001 = some (CMD_HEAD_UP, 500) ∧
    ((500 : ℚ) ≠ max 300 (min (1001 : ℚ) (|(50 : ℚ) - 0| / 100 * 1001))) := by
  constructor
  · unfold async_set_head_position_plan
    have hpos : (0 : ℚ) ⊔ (100 ⊓ 50) = 50 := by norm_num
    have habs : |(50 : ℚ) - 0| = 50 := by norm_num
    have hfloor : pyInt ((50 : ℚ) / 100 * ((1001 : ℤ) : ℚ)) = 500 := by
      unfold pyInt
      rw [if_pos (by norm_num)]
      rw [Int.floor_eq_iff]
      constructor <;> push_cast <;> norm_num
    simp only [hpos, habs, hfloor]
    rw [if_neg (by norm_num)]
    norm_num
  · have h0 : |(50 : ℚ) - 0| = 50 := by norm_num
    have h1 : ((50 : ℚ) / 100 * 1001) = 1001 / 2 := by norm_num
    rw [h0, h1, min_eq_right (by norm_num : (1001 : ℚ) / 2 ≤ 1001),
      max_eq_right (by norm_num : (300 : ℚ) ≤ 1001 / 2)]
    norm_num

/-- Claim C2 (amended): for either axis and every target in [0,100], the
move is a successful no-op exactly when `|target - current| < 0.5`; otherwise
the stream duration in ms is
`max(300, min(calibration_ms, int((|target - current| / 100) x calibration_ms)))`
— the product is truncated to an integer before clamping — and that value is
always at least 300, hence strictly positive. -/
theorem set_position_plan_duration (current target : ℚ) (cal : ℤ)
    (h0 : 0 ≤ target) (h100 : target ≤ 100) :
    (|target - current| < 1/2 →
      async_set_head_position_plan current target cal = none ∧
      async_set_feet_position_plan current target cal = none) ∧
    (1/2 ≤ |target - current| →
      async_set_head_position_plan current target cal =
        some ((if target > current then CMD_HEAD_UP else CMD_HEAD_DOWN),
          max 300 (min cal (pyInt (|target - current| / 100 * (cal : ℚ))))) ∧
      async_set_feet_position_plan current target cal =
        some ((if target > current then CMD_FEET_UP else CMD_FEET_DOWN),
          max 300 (min cal (pyInt (|target - current| / 100 * (cal : ℚ))))) ∧
      (0 : ℤ) < max 300 (min cal (pyInt (|target - current| / 100 * (cal : ℚ))))) := by
  have hclamp : max 0 (min 100 target) = target := by
    rw [min_eq_right h100, max_eq_right h0]
  unfold async_set_head_position_plan async_set_feet_position_plan
  simp only [hclamp]
  constructor
  · intro hlt
    rw [if_pos hlt, if_pos hlt]
    exact ⟨rfl, rfl⟩
  · intro hge
    have hnot : ¬ (|target - current| < 1/2) := not_lt.mpr hge
    rw [if_neg hnot, if_neg hnot]
    exact ⟨rfl, rfl, lt_of_lt_of_le (by norm_num) (le_max_left _ _)⟩

/-- Claim C3: stopping calibration for an axis stores
`clamp(1000, 120000, elapsed_ms)` as that axis's constant regardless of the
measured elapsed time, sets that axis's position to 100, and then issues
exactly one bounded move — the down command of that axis only, for the new
constant (the full-travel duration from 100%) — after which that axis rests
at 0 and the other axis's position and constant are untouched. -/
theorem stop_calibration_semantics (st : CoordState) (elapsed_ms : ℤ) :
    ((async_stop_calibration st 1 elapsed_ms).1.head_calibration_ms =
        max 1000 (min 120000 elapsed_ms) ∧
      1000 ≤ (async_stop_calibration st 1 elapsed_ms).1.head_calibration_ms ∧
      (async_stop_calibration st 1 elapsed_ms).1.head_calibration_ms ≤ 120000 ∧
      (async_stop_calibration st 1 elapsed_ms).1.head_position = 100 ∧
      (async_stop_calibration st 1 elapsed_ms).2.2 =
        [(CMD_HEAD_DOWN, max 1000 (min 120000 elapsed_ms))] ∧
      (async_stop_calibration st 1 elapsed_ms).2.1.head_position = 0 ∧
      (async_stop_calibration st 1 elapsed_ms).2.1.feet_position = st.feet_position ∧
      (async_stop_calibration st 1 elapsed_ms).2.1.feet_calibration_ms =
        st.feet_calibration_ms) ∧
    ((async_stop_calibration st 2 elapsed_ms).1.feet_calibration_ms =
        max 1000 (min 120000 elapsed_ms) ∧
      1000 ≤ (async_stop_calibration st 2 elapsed_ms).1.feet_calibration_ms ∧
      (async_stop_calibration st 2 elapsed_ms).1.feet_calibration_ms ≤ 120000 ∧
      (async_stop_calibration st 2 elapsed_ms).1.feet_position = 100 ∧
      (async_stop_calibration st 2 elapsed_ms).2.2 =
        [(CMD_FEET_DOWN, max 1000 (min 120000 elapsed_ms))] ∧
      (async_stop_calibration st 2 elapsed_ms).2.1.feet_position = 0 ∧
      (async_stop_calibration st 2 elapsed_ms).2.1.head_position = st.head_position ∧
      (async_stop_calibration st 2 elapsed_ms).2.1.head_calibration_ms =
        st.head_calibration_ms) := by
  have hd1 : (1000 : ℤ) ≤ max 1000 (min 120000 elapsed_ms) := le_max_left _ _
  have hd2 : max 1000 (min 120000 elapsed_ms) ≤ 120000 := by omega
  have hpy : pyInt ((100 : ℚ) / 100 * ((max 1000 (min 120000 elapsed_ms) : ℤ) : ℚ)) =
      max 1000 (min 120000 elapsed_ms) := by
    rw [show ((100 : ℚ) / 100) = 1 from by norm_num, one_mul, pyInt_intCast]
  have hc100 : max (0 : ℚ) (min 100 100) = 100 := by norm_num
  have hc0 : (100 : ℚ) > 1/2 := by norm_num
  have hmax : max (300 : ℤ) (max 1000 (min 120000 elapsed_ms)) =
      max 1000 (min 120000 elapsed_ms) := by omega
  have hcast : ((1000 : ℚ) ⊔ (120000 ⊓ (elapsed_ms : ℚ))) =
      (((1000 ⊔ 120000 ⊓ elapsed_ms : ℤ)) : ℚ) := by norm_cast
  have hfinal : (300 : ℤ) ⊔ pyInt ((1000 : ℚ) ⊔ (120000 ⊓ (elapsed_ms : ℚ))) =
      1000 ⊔ 120000 ⊓ elapsed_ms := by
    rw [hcast, pyInt_intCast]; omega
  constructor
  · simp only [async_stop_calibration, async_move_to_zero, set_head_position,
      set_feet_position]
    norm_num [hpy, hmax, hfinal]
  · simp only [async_stop_calibration, async_move_to_zero, set_head_position,
      set_feet_position]
    norm_num [hpy, hmax, hfinal]

theorem validate_pin_first_scan_none (received : List (List ℕ))
    (h : ∀ d ∈ received, parse_pin_response d = none ∧ pinNotSetIn d = false) :
    validate_pin_first_scan received = none := by
  induction received with
  | nil => rfl
  | cons d rest ih =>
    have hd := h d (by simp)
    simp only [validate_pin_first_scan, hd.1, hd.2, Bool.false_eq_true, if_false]
    exact ih (fun x hx => h x (by simp [hx]))

theorem validate_pin_recheck_scan_none (received : List (List ℕ))
    (h : ∀ d ∈ received, parse_pin_response d = none) :
    validate_pin_recheck_scan received = none := by
  induction received with
  | nil => rfl
  | cons d rest ih =>
    simp only [validate_pin_recheck_scan, h d (by simp)]
    exact ih (fun x hx => h x (by simp [hx]))

/-- Claim C4: when no received notification classifies (no accept, reject or
no-PIN-set pattern), `validate_pin` reports "ok" if the device is still
connected after the extra wait and "connection_failed" if it has
disconnected — in the disconnected case the outcome is neither "wrong_pin"
nor silently coerced to "ok". -/
theorem validate_pin_ambiguous_fallback (received : List (List ℕ))
    (h : ∀ d ∈ received, parse_pin_response d = none ∧ pinNotSetIn d = false) :
    validate_pin_outcome received true = "ok" ∧
    validate_pin_outcome received false = "connection_failed" ∧
    validate_pin_outcome received false ≠ "wrong_pin" ∧
    validate_pin_outcome received false ≠ "ok" := by
  have h1 := validate_pin_first_scan_none received h
  have h2 := validate_pin_recheck_scan_none received (fun d hd => (h d hd).1)
  unfold validate_pin_outcome
  rw [h1, h2]
  exact ⟨rfl, rfl, by decide, by decide⟩

theorem validate_pin_ambiguous_fallback_witness :
    validate_pin_outcome [[0xC0, 0x21, 0x05]] true = "ok" ∧
    validate_pin_outcome [[0xC0, 0x21, 0x05]] false = "connection_failed" :=
  ⟨(validate_pin_ambiguous_fallback [[0xC0, 0x21, 0x05]] (by decide)).1,
   (validate_pin_ambiguous_fallback [[0xC0, 0x21, 0x05]] (by decide)).2.1⟩

/-- Claim C5 (counterexample): the keep-alive loop iteration consults only
address resolution and presence, so with the movement busy flag set it still
sends the authentication frame, refuting "while movement or calibration is
active the keep-alive send never occurs". -/
theorem keep_alive_busy_counterexample :
    ¬ ∀ e : PollEnv, e.movement_active = true → keep_alive_iteration_sends e = false := by
  intro h
  exact absurd (h ⟨true, false, false, false, 0, true, true⟩ rfl) (by decide)

/-- Claim C5 (amended): each keep-alive iteration sends the authentication
frame exactly when the resolved address is currently observed, independently
of the movement/calibration busy flags; those flags suppress only the
periodic connectivity poll (`_async_update_data`), which skips its BLE check
whenever any of them is set. -/
theorem keep_alive_and_poll_gating (e : PollEnv) :
    ((e.movement_active || e.calibration_active || e.calibration_stopping) = true →
      async_update_data_action e = PollAction.skipBusy) ∧
    keep_alive_iteration_sends e = (e.address_resolved && e.address_present) ∧
    keep_alive_iteration_sends e =
      keep_alive_iteration_sends
        { e with movement_active := true, calibration_active := true,
                 calibration_stopping := true } := by
  refine ⟨fun h => ?_, rfl, rfl⟩
  simp [async_update_data_action, h]

theorem keep_alive_and_poll_gating_witness :
    async_update_data_action ⟨true, false, false, false, 0, true, true⟩ =
      PollAction.skipBusy ∧
    keep_alive_iteration_sends ⟨true, false, false, false, 0, true, true⟩ = true :=
  ⟨(keep_alive_and_poll_gating ⟨true, false, false, false, 0, true, true⟩).1 (by decide),
   (keep_alive_and_poll_gating ⟨true, false, false, false, 0, true, true⟩).2.1⟩

theorem movement_attempt_loop_connects_le (duration : ℚ) (steps : ℕ → MovementStep) :
    ∀ (fuel attempt : ℕ) (elapsed : ℚ),
      (movement_attempt_loop duration steps fuel attempt elapsed).connects ≤ fuel := by
  intro fuel
  induction fuel with
  | zero => intro attempt elapsed; simp [movement_attempt_loop]
  | succ n ih =>
    intro attempt elapsed
    rw [movement_attempt_loop]
    cases hs : steps attempt with
    | completes => split_ifs <;> simp
    | failsOther t => split_ifs <;> simp
    | failsCharNotFound t avail =>
      split_ifs with hrem ha
      · simp
      · cases avail with
        | true =>
          have := ih (attempt + 1) (elapsed + 0 ⊔ t)
          simp only [if_pos rfl]
          simp
          omega
        | false => simp
      · simp

/-- Claim C6: a mid-stream "characteristic not found" failure retries with a
fresh connection for the *remaining* duration only (the planned segments
after failing at `t0` and then `t1` are `duration`, `duration - t0`,
`duration - t0 - t1`); at most 3 connection attempts are ever made; when the
third attempt also fails, the run returns failure (`success = false` instead
of raising) after the one best-effort stop send, while a successful third
attempt completes the stream. -/
theorem movement_retry_semantics
    (duration t0 t1 : ℚ) (steps : ℕ → MovementStep)
    (ht0 : 0 ≤ t0) (ht1 : 0 ≤ t1)
    (h1 : 1/10 < duration - t0)
    (h2 : 1/10 < duration - t0 - t1)
    (hs0 : steps 0 = MovementStep.failsCharNotFound t0 true)
    (hs1 : steps 1 = MovementStep.failsCharNotFound t1 true) :
    (∀ (b : Bool) (d : ℚ) (s : ℕ → MovementStep),
      (async_run_movement_for_duration b d s).connects ≤ 3) ∧
    (steps 2 = MovementStep.completes →
      async_run_movement_for_duration true duration steps =
        ⟨true, 3, [duration, duration - t0, duration - t0 - t1], false⟩) ∧
    (∀ (t2 : ℚ) (avail : Bool),
      steps 2 = MovementStep.failsCharNotFound t2 avail →
      async_run_movement_for_duration true duration steps =
        ⟨false, 3, [duration, duration - t0, duration - t0 - t1], true⟩) := by
  have hd0 : ¬ (duration ≤ 1/10) := by push_neg; linarith
  have hd1 : ¬ (duration - t0 ≤ 1/10) := by push_neg; linarith
  have hd2 : ¬ (duration - (t0 + t1) ≤ 1/10) := by
    push_neg; rw [← sub_sub]; linarith
  refine ⟨?_, ?_, ?_⟩
  · intro b d s
    unfold async_run_movement_for_duration
    split_ifs
    · simp
    · simp
    · exact movement_attempt_loop_connects_le d s 3 0 0
  · intro hs2
    unfold async_run_movement_for_duration
    rw [if_neg (by linarith : ¬ duration ≤ 0)]
    simp only [Bool.not_true, Bool.false_eq_true, if_false]
    simp only [movement_attempt_loop, hs0, hs1, hs2, max_eq_right ht0,
      max_eq_right ht1, zero_add, sub_zero, sub_sub, hd0, hd1, hd2, if_false, if_true]
    norm_num
  · intro t2 avail hs2
    unfold async_run_movement_for_duration
    rw [if_neg (by linarith : ¬ duration ≤ 0)]
    simp only [Bool.not_true, Bool.false_eq_true, if_false]
    simp only [movement_attempt_loop, hs0, hs1, hs2, max_eq_right ht0,
      max_eq_right ht1, zero_add, sub_zero, sub_sub, hd0, hd1, hd2, if_false, if_true]
    norm_num

theorem movement_retry_semantics_witness :
    async_run_movement_for_duration true 10
      (fun n => if n = 0 then MovementStep.failsCharNotFound 4 true
        else if n = 1 then MovementStep.failsCharNotFound 3 true
        else MovementStep.completes) =
      ⟨true, 3, [10, 10 - 4, 10 - 4 - 3], false⟩ :=
  ((movement_retry_semantics 10 4 3
      (fun n => if n = 0 then MovementStep.failsCharNotFound 4 true
        else if n = 1 then MovementStep.failsCharNotFound 3 true
        else MovementStep.completes)
      (by norm_num) (by norm_num) (by norm_num) (by norm_num) rfl rfl).2.1) rfl

theorem clamp01_mem (v : ℚ) : 0 ≤ max 0 (min 100 v) ∧ max 0 (min 100 v) ≤ 100 :=
  ⟨le_max_left 0 _, max_le (by norm_num) (min_le_left 100 v)⟩

/-- Claim C9: starting from any state whose positions are in [0,100], every
position-mutating operation — the setters themselves (for any input value),
the after-switch-movement estimate, the streaming estimation step, and the
calibration-stop path (both the save state and the state after the
move-to-zero) — leaves both stored positions in [0,100]. -/
theorem positions_clamped (st : CoordState) (h : InRange st) :
    (∀ v, InRange (set_head_position st v)) ∧
    (∀ v, InRange (set_feet_position st v)) ∧
    (∀ cmd dur, InRange (update_position_after_switch_movement st cmd dur)) ∧
    (∀ cmd sh sf el, InRange (movement_stream_update st cmd sh sf el)) ∧
    (∀ mode el, InRange (async_stop_calibration st mode el).1 ∧
      InRange (async_stop_calibration st mode el).2.1) := by
  obtain ⟨h1, h2, h3, h4⟩ := h
  have hsh : ∀ (s : CoordState) v, 0 ≤ s.feet_position → s.feet_position ≤ 100 →
      InRange (set_head_position s v) := fun s v hf1 hf2 =>
    ⟨(clamp01_mem v).1, (clamp01_mem v).2, hf1, hf2⟩
  have hsf : ∀ (s : CoordState) v, 0 ≤ s.head_position → s.head_position ≤ 100 →
      InRange (set_feet_position s v) := fun s v hh1 hh2 =>
    ⟨hh1, hh2, (clamp01_mem v).1, (clamp01_mem v).2⟩
  have hmz : ∀ (s : CoordState), InRange s → ∀ ho fo,
      InRange (async_move_to_zero s ho fo).1 := by
    intro s hs ho fo
    obtain ⟨a1, a2, a3, a4⟩ := hs
    unfold async_move_to_zero
    dsimp only
    split_ifs <;>
      simp_all [InRange, set_head_position, set_feet_position]
  refine ⟨fun v => hsh st v h3 h4, fun v => hsf st v h1 h2, ?_, ?_, ?_⟩
  · intro cmd dur
    unfold update_position_after_switch_movement
    dsimp only
    split_ifs
    · exact ⟨h1, h2, h3, h4⟩
    · exact hsh st _ h3 h4
    · exact hsh st _ h3 h4
    · exact hsf st _ h1 h2
    · exact hsf st _ h1 h2
    · exact hsf _ _ (clamp01_mem _).1 (clamp01_mem _).2
    · exact hsf _ _ (clamp01_mem _).1 (clamp01_mem _).2
    · exact ⟨h1, h2, h3, h4⟩
  · intro cmd sh sf el
    unfold movement_stream_update
    dsimp only
    split_ifs
    · exact hsh st _ h3 h4
    · exact hsh st _ h3 h4
    · exact hsf st _ h1 h2
    · exact hsf st _ h1 h2
    · exact hsf _ _ (clamp01_mem _).1 (clamp01_mem _).2
    · exact hsf _ _ (clamp01_mem _).1 (clamp01_mem _).2
    · exact ⟨h1, h2, h3, h4⟩
  · intro mode el
    have hst1 : InRange (if mode = 1 then
        set_head_position { st with head_calibration_ms := max 1000 (min 120000 el) } 100
      else if mode = 2 then
        set_feet_position { st with feet_calibration_ms := max 1000 (min 120000 el) } 100
      else st) := by
      split_ifs
      · exact hsh _ _ h3 h4
      · exact hsf _ _ h1 h2
      · exact ⟨h1, h2, h3, h4⟩
    exact ⟨hst1, hmz _ hst1 _ _⟩

theorem positions_clamped_witness :
    InRange (set_head_position ⟨0, 0, 30000, 30000, 30, 30⟩ 250) ∧
    InRange (update_position_after_switch_movement ⟨0, 0, 30000, 30000, 30, 30⟩
      CMD_HEAD_UP 5) :=
  ⟨(positions_clamped ⟨0, 0, 30000, 30000, 30, 30⟩
      ⟨le_refl 0, by norm_num, le_refl 0, by norm_num⟩).1 250,
   (positions_clamped ⟨0, 0, 30000, 30000, 30, 30⟩
      ⟨le_refl 0, by norm_num, le_refl 0, by norm_num⟩).2.2.1 CMD_HEAD_UP 5⟩

theorem filter_dropWhile_eq (p q : Char → Bool) (l : List Char)
    (h : ∀ a, q a = true → p a = false) :
    (l.dropWhile q).filter p = l.filter p := by
  induction l with
  | nil => rfl
  | cons a l ih =>
    rw [List.dropWhile_cons]
    by_cases hq : q a = true
    · rw [if_pos hq, ih, List.filter_cons_of_neg (by simp [h a hq])]
    · rw [if_neg hq]

theorem filter_pyStrip (l : List Char) :
    (pyStrip l).filter isPinDigit = l.filter isPinDigit := by
  have hws : ∀ a, Char.isWhitespace a = true → isPinDigit a = false := by
    intro a ha
    by_contra hd
    rw [Bool.not_eq_false] at hd
    have hmem : a ∈ "0123456789".toList := by simpa [isPinDigit] using hd
    fin_cases hmem <;> simp_all [Char.isWhitespace]
  unfold pyStrip
  rw [List.filter_reverse, filter_dropWhile_eq _ _ _ hws, List.filter_reverse,
    List.reverse_reverse, filter_dropWhile_eq _ _ _ hws]

theorem normalize_pin_spec (p : List Char) :
    normalize_pin p =
      (p.filter isPinDigit).take 4 ++
        List.replicate (4 - ((p.filter isPinDigit).take 4).length) '0' := by
  unfold normalize_pin normalize_pin_str
  by_cases hp : p = []
  · subst hp; decide
  · rw [if_neg hp]
    dsimp only
    rw [filter_pyStrip]

/-- Claim C10: `normalize_pin` is total — on every input it yields exactly
4 characters, all digits; it equals "skip non-digits, keep the first 4
remaining digits, pad with '0'"; an input with no digits yields "0000"; and
it is idempotent. -/
theorem normalize_pin_total_idempotent (p : List Char) :
    (normalize_pin p).length = 4 ∧
    (∀ c ∈ normalize_pin p, isPinDigit c = true) ∧
    normalize_pin p =
      (p.filter isPinDigit).take 4 ++
        List.replicate (4 - ((p.filter isPinDigit).take 4).length) '0' ∧
    ((∀ c ∈ p, isPinDigit c = false) → normalize_pin p = "0000".toList) ∧
    normalize_pin (normalize_pin p) = normalize_pin p := by
  have hspec := normalize_pin_spec p
  have hlen : (normalize_pin p).length = 4 := by
    rw [hspec]
    simp only [List.length_append, List.length_replicate, List.length_take]
    omega
  have hdig : ∀ c ∈ normalize_pin p, isPinDigit c = true := by
    intro c hc
    rw [hspec] at hc
    rcases List.mem_append.mp hc with hc | hc
    · exact (List.mem_filter.mp (List.mem_of_mem_take hc)).2
    · rw [List.eq_of_mem_replicate hc]; decide
  refine ⟨hlen, hdig, hspec, ?_, ?_⟩
  · intro hnone
    rw [hspec, List.filter_eq_nil_iff.mpr (by simpa using hnone)]
    decide
  · rw [normalize_pin_spec (normalize_pin p), List.filter_eq_self.mpr hdig,
      List.take_of_length_le (le_of_eq hlen), hlen]
    simp

theorem normalize_pin_total_idempotent_witness :
    normalize_pin (normalize_pin ("a1b2c3d4e5".toList)) =
      normalize_pin ("a1b2c3d4e5".toList) ∧
    (normalize_pin ("a1b2c3d4e5".toList)).length = 4 :=
  ⟨(normalize_pin_total_idempotent ("a1b2c3d4e5".toList)).2.2.2.2,
   (normalize_pin_total_idempotent ("a1b2c3d4e5".toList)).1⟩

theorem set_position_plan_duration_witness :
    async_set_head_position_plan 0 50 30000 =
      some ((if (50 : ℚ) > 0 then CMD_HEAD_UP else CMD_HEAD_DOWN),
        max 300 (min 30000 (pyInt (|(50 : ℚ) - 0| / 100 * (30000 : ℚ))))) ∧
    (0 : ℤ) < max 300 (min 30000 (pyInt (|(50 : ℚ) - 0| / 100 * (30000 : ℚ)))) :=
  let h := (set_position_plan_duration 0 50 30000 (by norm_num) (by norm_num)).2
    (by rw [show |(50 : ℚ) - 0| = 50 by norm_num]; norm_num)
  ⟨h.1, h.2.2⟩

end OctoBed
